import Mathlib

/-!
Verification of the `default-test` crate: a trait `DefaultTest` with a single
no-argument operation `default_test() -> Self`, implemented for the built-in
scalar and string types by returning a fixed literal, plus the `User` example
from `examples/hello.rs`.

The implementations are pure no-argument functions returning literals, so the
direct shallow embedding of each is a Lean constant.  To state determinism,
purity ("no hidden state") and infallibility faithfully, we additionally embed
each function body in a state-passing, panic-aware semantics `RustEval`: a
body that can read or mutate ambient state, or panic, would show up there; the
bodies translated from the source only ever `rustReturn` a literal.

Machine integers are modelled as `Nat` (unsigned: `usize`, `u8`..`u128`) and
`Int` (signed: `isize`, `i8`..`i128`); every value produced by the code is the
literal `0`, so no overflow arithmetic occurs.  The floating point types `f32`
and `f64` only ever hold the literal `0.0`, which IEEE 754 represents exactly
at both widths, and no floating-point arithmetic occurs anywhere in the crate;
their values are therefore modelled exactly as rationals.
-/

/-- Semantics of a Rust function body: given an ambient state of arbitrary
type `σ`, the body either panics (modelled as `Except.error` carrying the
panic message) or returns a value together with the resulting state. -/
def RustEval (σ α : Type) : Type := σ → Except String (α × σ)

/-- Embedding of a body that is a plain `return`-expression: it leaves the
ambient state untouched and never panics. -/
def rustReturn (σ : Type) {α : Type} (a : α) : RustEval σ α :=
  fun s => Except.ok (a, s)

/-- Sequencing of two Rust computations: a panic in the first aborts the
whole evaluation. -/
def RustEval.bind {σ α β : Type} (m : RustEval σ α) (k : α → RustEval σ β) :
    RustEval σ β :=
  fun s =>
    match m s with
    | Except.ok (a, s₂) => k a s₂
    | Except.error e => Except.error e

/-- The function `f` (polymorphic over the ambient state) is pure and
deterministic: from any two starting states it succeeds, returns one and the
same value, and leaves the state unchanged. -/
def pureDeterministic {α : Type} (f : (σ : Type) → RustEval σ α) : Prop :=
  ∀ (σ : Type) (s₁ s₂ : σ), ∃ v : α,
    f σ s₁ = Except.ok (v, s₁) ∧ f σ s₂ = Except.ok (v, s₂)

/-- The function `f` is total and infallible: from every starting state it
evaluates to `Except.ok`, never to a panic. -/
def infallible {α : Type} (f : (σ : Type) → RustEval σ α) : Prop :=
  ∀ (σ : Type) (s : σ), ∃ v : α, ∃ s₂ : σ, f σ s = Except.ok (v, s₂)

theorem rustReturn_pureDeterministic {α : Type} (a : α) :
    pureDeterministic (fun σ => rustReturn σ a) :=
  fun _ _ _ => ⟨a, rfl, rfl⟩

theorem rustReturn_infallible {α : Type} (a : α) :
    infallible (fun σ => rustReturn σ a) :=
  fun _ s => ⟨a, s, rfl⟩

/-- Body of `impl DefaultTest for bool`: the literal `false`. -/
def boolDefaultTest : Bool := false

/-- Body of `impl DefaultTest for char`: the literal `'-'`. -/
def charDefaultTest : Char := '-'

/-- Body of `impl DefaultTest for &str`: the literal `"string"`.  A `&str`
value is modelled by the text it points at. -/
def strDefaultTest : String := "string"

/-- Owned-string conversion `"...".into()` (that is, `String::from` on a
`&str`): the owned string holds the same text. -/
def strToOwned (s : String) : String := s

/-- Body of `impl DefaultTest for String`: `"string".into()`. -/
def stringDefaultTest : String := strToOwned "string"

/-- Body of `impl DefaultTest for usize`: the literal `0`. -/
def usizeDefaultTest : Nat := 0

/-- Body of `impl DefaultTest for isize`: the literal `0`. -/
def isizeDefaultTest : Int := 0

/-- Body of `impl DefaultTest for u8`: the literal `0`. -/
def u8DefaultTest : Nat := 0

/-- Body of `impl DefaultTest for i8`: the literal `0`. -/
def i8DefaultTest : Int := 0

/-- Body of `impl DefaultTest for u16`: the literal `0`. -/
def u16DefaultTest : Nat := 0

/-- Body of `impl DefaultTest for i16`: the literal `0`. -/
def i16DefaultTest : Int := 0

/-- Body of `impl DefaultTest for u32`: the literal `0`. -/
def u32DefaultTest : Nat := 0

/-- Body of `impl DefaultTest for i32`: the literal `0`. -/
def i32DefaultTest : Int := 0

/-- Body of `impl DefaultTest for u64`: the literal `0`. -/
def u64DefaultTest : Nat := 0

/-- Body of `impl DefaultTest for i64`: the literal `0`. -/
def i64DefaultTest : Int := 0

/-- Body of `impl DefaultTest for u128`: the literal `0`. -/
def u128DefaultTest : Nat := 0

/-- Body of `impl DefaultTest for i128`: the literal `0`. -/
def i128DefaultTest : Int := 0

/-- Body of `impl DefaultTest for f32`: the literal `0.0`, which is exactly
representable in IEEE 754 binary32; since the crate performs no floating
point arithmetic, the value is modelled exactly as a rational. -/
def f32DefaultTest : Rat := 0

/-- Body of `impl DefaultTest for f64`: the literal `0.0`, which is exactly
representable in IEEE 754 binary64. -/
def f64DefaultTest : Rat := 0

/-- The `bool` implementation in the state-passing semantics. -/
def boolDefaultTestEval (σ : Type) : RustEval σ Bool :=
  rustReturn σ boolDefaultTest

/-- The `char` implementation in the state-passing semantics. -/
def charDefaultTestEval (σ : Type) : RustEval σ Char :=
  rustReturn σ charDefaultTest

/-- The `&str` implementation in the state-passing semantics. -/
def strDefaultTestEval (σ : Type) : RustEval σ String :=
  rustReturn σ strDefaultTest

/-- The `String` implementation in the state-passing semantics. -/
def stringDefaultTestEval (σ : Type) : RustEval σ String :=
  rustReturn σ stringDefaultTest

/-- The `usize` implementation in the state-passing semantics. -/
def usizeDefaultTestEval (σ : Type) : RustEval σ Nat :=
  rustReturn σ usizeDefaultTest

/-- The `isize` implementation in the state-passing semantics. -/
def isizeDefaultTestEval (σ : Type) : RustEval σ Int :=
  rustReturn σ isizeDefaultTest

/-- The `u8` implementation in the state-passing semantics. -/
def u8DefaultTestEval (σ : Type) : RustEval σ Nat :=
  rustReturn σ u8DefaultTest

/-- The `i8` implementation in the state-passing semantics. -/
def i8DefaultTestEval (σ : Type) : RustEval σ Int :=
  rustReturn σ i8DefaultTest

/-- The `u16` implementation in the state-passing semantics. -/
def u16DefaultTestEval (σ : Type) : RustEval σ Nat :=
  rustReturn σ u16DefaultTest

/-- The `i16` implementation in the state-passing semantics. -/
def i16DefaultTestEval (σ : Type) : RustEval σ Int :=
  rustReturn σ i16DefaultTest

/-- The `u32` implementation in the state-passing semantics. -/
def u32DefaultTestEval (σ : Type) : RustEval σ Nat :=
  rustReturn σ u32DefaultTest

/-- The `i32` implementation in the state-passing semantics. -/
def i32DefaultTestEval (σ : Type) : RustEval σ Int :=
  rustReturn σ i32DefaultTest

/-- The `u64` implementation in the state-passing semantics. -/
def u64DefaultTestEval (σ : Type) : RustEval σ Nat :=
  rustReturn σ u64DefaultTest

/-- The `i64` implementation in the state-passing semantics. -/
def i64DefaultTestEval (σ : Type) : RustEval σ Int :=
  rustReturn σ i64DefaultTest

/-- The `u128` implementation in the state-passing semantics. -/
def u128DefaultTestEval (σ : Type) : RustEval σ Nat :=
  rustReturn σ u128DefaultTest

/-- The `i128` implementation in the state-passing semantics. -/
def i128DefaultTestEval (σ : Type) : RustEval σ Int :=
  rustReturn σ i128DefaultTest

/-- The `f32` implementation in the state-passing semantics. -/
def f32DefaultTestEval (σ : Type) : RustEval σ Rat :=
  rustReturn σ f32DefaultTest

/-- The `f64` implementation in the state-passing semantics. -/
def f64DefaultTestEval (σ : Type) : RustEval σ Rat :=
  rustReturn σ f64DefaultTest

/-- The record type of `examples/hello.rs`: fields `id: usize`,
`name: String`, `email: String`, `admin: bool`. -/
structure User where
  id : Nat
  name : String
  email : String
  admin : Bool
deriving DecidableEq

/-- The hand-written `impl DefaultTest for User` of `examples/hello.rs`:
`Self { id: 0, name: "name".into(), email: "email".into(), admin: false }`. -/
def User.default_test : User :=
  { id := 0, name := strToOwned "name", email := strToOwned "email",
    admin := false }

/-- The `User` implementation in the state-passing semantics. -/
def userDefaultTestEval (σ : Type) : RustEval σ User :=
  rustReturn σ User.default_test

/-- The field-override construction of `main`, generalised over the value
written into the `admin` field: `User { admin: b, ..User::default_test() }`.
The source fixes `b` to `true`. -/
def buildUserWithAdmin (b : Bool) : User :=
  { User.default_test with admin := b }

/-- The same construction in the state-passing semantics: call
`User::default_test()`, then build the struct literal that copies every
field from the result except `admin`. -/
def buildUserWithAdminEval (b : Bool) (σ : Type) : RustEval σ User :=
  RustEval.bind (userDefaultTestEval σ)
    (fun u => rustReturn σ { u with admin := b })

/-- The `user` value computed by `main` in `examples/hello.rs`:
`User { admin: true, ..User::default_test() }`. -/
def mainUser : User := buildUserWithAdmin true

/-- The `expected` value written out literally in `main`:
`User { id: 0, name: "name".into(), email: "email".into(), admin: true }`. -/
def mainExpected : User :=
  { id := 0, name := strToOwned "name", email := strToOwned "email",
    admin := true }

/-- C1: for every built-in supported type (`bool`, `char`, `&str`, `String`,
all ten integer widths, `f32`, `f64`), the implementation of
`default_test()` is pure and deterministic: evaluated from any two ambient
states it succeeds, returns one and the same value, and leaves the state
untouched — so two separate invocations return values that compare equal. -/
theorem c1_builtin_determinism :
    pureDeterministic boolDefaultTestEval ∧
    pureDeterministic charDefaultTestEval ∧
    pureDeterministic strDefaultTestEval ∧
    pureDeterministic stringDefaultTestEval ∧
    pureDeterministic usizeDefaultTestEval ∧
    pureDeterministic isizeDefaultTestEval ∧
    pureDeterministic u8DefaultTestEval ∧
    pureDeterministic i8DefaultTestEval ∧
    pureDeterministic u16DefaultTestEval ∧
    pureDeterministic i16DefaultTestEval ∧
    pureDeterministic u32DefaultTestEval ∧
    pureDeterministic i32DefaultTestEval ∧
    pureDeterministic u64DefaultTestEval ∧
    pureDeterministic i64DefaultTestEval ∧
    pureDeterministic u128DefaultTestEval ∧
    pureDeterministic i128DefaultTestEval ∧
    pureDeterministic f32DefaultTestEval ∧
    pureDeterministic f64DefaultTestEval :=
  ⟨rustReturn_pureDeterministic boolDefaultTest,
   rustReturn_pureDeterministic charDefaultTest,
   rustReturn_pureDeterministic strDefaultTest,
   rustReturn_pureDeterministic stringDefaultTest,
   rustReturn_pureDeterministic usizeDefaultTest,
   rustReturn_pureDeterministic isizeDefaultTest,
   rustReturn_pureDeterministic u8DefaultTest,
   rustReturn_pureDeterministic i8DefaultTest,
   rustReturn_pureDeterministic u16DefaultTest,
   rustReturn_pureDeterministic i16DefaultTest,
   rustReturn_pureDeterministic u32DefaultTest,
   rustReturn_pureDeterministic i32DefaultTest,
   rustReturn_pureDeterministic u64DefaultTest,
   rustReturn_pureDeterministic i64DefaultTest,
   rustReturn_pureDeterministic u128DefaultTest,
   rustReturn_pureDeterministic i128DefaultTest,
   rustReturn_pureDeterministic f32DefaultTest,
   rustReturn_pureDeterministic f64DefaultTest⟩

/-- C2: constructing a `User` that copies every field of
`User::default_test()` except overriding `admin` to `true` yields exactly
`{ id: 0, name: "name", email: "email", admin: true }` — the assertion of
`main` in `examples/hello.rs` holds. -/
theorem c2_user_override_equals_expected : mainUser = mainExpected := rfl

/-- C3: every built-in integer implementation — unsigned and signed, at
widths 8, 16, 32, 64, 128 bits and pointer-sized — returns exactly `0`. -/
theorem c3_integers_are_zero :
    usizeDefaultTest = 0 ∧ isizeDefaultTest = 0 ∧
    u8DefaultTest = 0 ∧ i8DefaultTest = 0 ∧
    u16DefaultTest = 0 ∧ i16DefaultTest = 0 ∧
    u32DefaultTest = 0 ∧ i32DefaultTest = 0 ∧
    u64DefaultTest = 0 ∧ i64DefaultTest = 0 ∧
    u128DefaultTest = 0 ∧ i128DefaultTest = 0 :=
  ⟨rfl, rfl, rfl, rfl, rfl, rfl, rfl, rfl, rfl, rfl, rfl, rfl⟩

/-- C4: both string-like implementations (`&str` and `String`) return
exactly the text `"string"`. -/
theorem c4_strings_are_string :
    strDefaultTest = "string" ∧ stringDefaultTest = "string" :=
  ⟨rfl, rfl⟩

/-- C5: the `bool` implementation returns exactly `false`. -/
theorem c5_bool_is_false : boolDefaultTest = false := rfl

/-- C6: the `char` implementation returns exactly the character `'-'`. -/
theorem c6_char_is_dash : charDefaultTest = '-' := rfl

/-- C7: both floating-point implementations (`f32` and `f64`) return exactly
`0.0`; the literal is exactly representable at both widths, so the rational
model is exact. -/
theorem c7_floats_are_zero : f32DefaultTest = 0 ∧ f64DefaultTest = 0 :=
  ⟨rfl, rfl⟩

/-- C8: every built-in implementation of `default_test()` is total and
infallible: from every ambient state it evaluates to a value of the
implementing type, never to a panic. -/
theorem c8_builtin_infallible :
    infallible boolDefaultTestEval ∧
    infallible charDefaultTestEval ∧
    infallible strDefaultTestEval ∧
    infallible stringDefaultTestEval ∧
    infallible usizeDefaultTestEval ∧
    infallible isizeDefaultTestEval ∧
    infallible u8DefaultTestEval ∧
    infallible i8DefaultTestEval ∧
    infallible u16DefaultTestEval ∧
    infallible i16DefaultTestEval ∧
    infallible u32DefaultTestEval ∧
    infallible i32DefaultTestEval ∧
    infallible u64DefaultTestEval ∧
    infallible i64DefaultTestEval ∧
    infallible u128DefaultTestEval ∧
    infallible i128DefaultTestEval ∧
    infallible f32DefaultTestEval ∧
    infallible f64DefaultTestEval :=
  ⟨rustReturn_infallible boolDefaultTest,
   rustReturn_infallible charDefaultTest,
   rustReturn_infallible strDefaultTest,
   rustReturn_infallible stringDefaultTest,
   rustReturn_infallible usizeDefaultTest,
   rustReturn_infallible isizeDefaultTest,
   rustReturn_infallible u8DefaultTest,
   rustReturn_infallible i8DefaultTest,
   rustReturn_infallible u16DefaultTest,
   rustReturn_infallible i16DefaultTest,
   rustReturn_infallible u32DefaultTest,
   rustReturn_infallible i32DefaultTest,
   rustReturn_infallible u64DefaultTest,
   rustReturn_infallible i64DefaultTest,
   rustReturn_infallible u128DefaultTest,
   rustReturn_infallible i128DefaultTest,
   rustReturn_infallible f32DefaultTest,
   rustReturn_infallible f64DefaultTest⟩

/-- C9: for every boolean `b`, the placeholder-then-override construction
`User { admin: b, ..User::default_test() }` is pure and deterministic:
performed from any two ambient states it succeeds, produces one and the
same value, and leaves the state unchanged — so applying it twice with the
same override yields equal results. -/
theorem c9_override_idempotent :
    ∀ b : Bool, pureDeterministic (buildUserWithAdminEval b) :=
  fun b _ _ _ => ⟨buildUserWithAdmin b, rfl, rfl⟩

/-- C10: the placeholder for `String` agrees with the placeholder for
`&str`: `String::default_test()` equals the owned-string conversion of
`<&str>::default_test()`. -/
theorem c10_string_agrees_with_str :
    stringDefaultTest = strToOwned strDefaultTest := rfl
